import Mathlib

/- Shallow embedding of the homebridge-lovesac-stealthtech core.
   Bytes are modelled as natural numbers below 256; TypeScript numbers that hold
   device values are modelled as integers (the uninitialized sentinel is -1).
   Each definition mirrors one function of the source. -/

/- src/protocol/constants.ts : the ResponseCode enum. -/

def rcVolume : Nat := 0x01
def rcCenterVolume : Nat := 0x02
def rcTreble : Nat := 0x03
def rcBass : Nat := 0x04
def rcMute : Nat := 0x05
def rcQuietMode : Nat := 0x06
def rcBalance : Nat := 0x07
def rcLayout : Nat := 0x08
def rcSource : Nat := 0x09
def rcPower : Nat := 0x0a
def rcPreset : Nat := 0x0b
def rcCovering : Nat := 0x0c
def rcArmType : Nat := 0x0d
def rcSubwoofer : Nat := 0x0e
def rcRearVolume : Nat := 0x0f

/- src/protocol/responses.ts : DeviceState, createDefaultState, parseNotification,
   applyResponse.  applyResponse's TypeScript result is the three-valued
   true / false / OUT_OF_RANGE, modelled by ApplyResult; the mutation of the
   state object is modelled by returning the new state. -/

structure DeviceState where
  power : Bool
  volume : Int
  mute : Bool
  source : Int
  preset : Int
  quietMode : Bool
  bass : Int
  treble : Int
  centerVolume : Int
  rearVolume : Int
  balance : Int
  subwooferConnected : Bool
deriving DecidableEq, Repr

def createDefaultState : DeviceState :=
  { power := false
    volume := -1
    mute := false
    source := -1
    preset := -1
    quietMode := false
    bass := -1
    treble := -1
    centerVolume := -1
    rearVolume := -1
    balance := -1
    subwooferConnected := false }

structure ParsedResponse where
  code : Nat
  value : Nat
deriving DecidableEq, Repr

def parseNotification (data : List Nat) : Option ParsedResponse :=
  if data.length < 4 then
    none
  else if 5 ≤ data.length ∧ data.getD 2 0 = 0xAA ∧ data.getD 3 0 = 0x01
            ∧ data.getD 4 0 = 0x03 then
    none
  else
    let code := data.getD (data.length - 2) 0
    let value := data.getD (data.length - 1) 0
    if code < rcVolume ∨ code > rcRearVolume then none
    else some ⟨code, value⟩

inductive ApplyResult where
  | changed
  | unchanged
  | outOfRange
deriving DecidableEq, Repr

def inRange (value lo hi : Nat) : Bool :=
  decide (lo ≤ value ∧ value ≤ hi)

def applyResponse (s : DeviceState) (code value : Nat) : ApplyResult × DeviceState :=
  if code = rcVolume then
    if !(inRange value 0 36) then (ApplyResult.outOfRange, s)
    else if s.volume = (value : Int) then (ApplyResult.unchanged, s)
    else (ApplyResult.changed, { s with volume := (value : Int) })
  else if code = rcCenterVolume then
    if !(inRange value 0 30) then (ApplyResult.outOfRange, s)
    else if s.centerVolume = (value : Int) then (ApplyResult.unchanged, s)
    else (ApplyResult.changed, { s with centerVolume := (value : Int) })
  else if code = rcTreble then
    if !(inRange value 0 20) then (ApplyResult.outOfRange, s)
    else if s.treble = (value : Int) then (ApplyResult.unchanged, s)
    else (ApplyResult.changed, { s with treble := (value : Int) })
  else if code = rcBass then
    if !(inRange value 0 20) then (ApplyResult.outOfRange, s)
    else if s.bass = (value : Int) then (ApplyResult.unchanged, s)
    else (ApplyResult.changed, { s with bass := (value : Int) })
  else if code = rcMute then
    if !(inRange value 0 1) then (ApplyResult.outOfRange, s)
    else
      let muted : Bool := value == 1
      if s.mute = muted then (ApplyResult.unchanged, s)
      else (ApplyResult.changed, { s with mute := muted })
  else if code = rcQuietMode then
    if !(inRange value 0 1) then (ApplyResult.outOfRange, s)
    else
      let enabled : Bool := value == 1
      if s.quietMode = enabled then (ApplyResult.unchanged, s)
      else (ApplyResult.changed, { s with quietMode := enabled })
  else if code = rcBalance then
    if !(inRange value 0 100) then (ApplyResult.outOfRange, s)
    else if s.balance = (value : Int) then (ApplyResult.unchanged, s)
    else (ApplyResult.changed, { s with balance := (value : Int) })
  else if code = rcSource then
    if !(inRange value 0 3) then (ApplyResult.outOfRange, s)
    else if s.source = (value : Int) then (ApplyResult.unchanged, s)
    else (ApplyResult.changed, { s with source := (value : Int) })
  else if code = rcPower then
    if !(inRange value 0 1) then (ApplyResult.outOfRange, s)
    else
      let enabled : Bool := value == 0
      if s.power = enabled then (ApplyResult.unchanged, s)
      else (ApplyResult.changed, { s with power := enabled })
  else if code = rcPreset then
    if !(inRange value 0 3) then (ApplyResult.outOfRange, s)
    else if s.preset = (value : Int) then (ApplyResult.unchanged, s)
    else (ApplyResult.changed, { s with preset := (value : Int) })
  else if code = rcSubwoofer then
    if !(inRange value 0 1) then (ApplyResult.outOfRange, s)
    else
      let connected : Bool := value == 1
      if s.subwooferConnected = connected then (ApplyResult.unchanged, s)
      else (ApplyResult.changed, { s with subwooferConnected := connected })
  else if code = rcRearVolume then
    if !(inRange value 0 30) then (ApplyResult.outOfRange, s)
    else if s.rearVolume = (value : Int) then (ApplyResult.unchanged, s)
    else (ApplyResult.changed, { s with rearVolume := (value : Int) })
  else
    (ApplyResult.unchanged, s)

/- The per-code declared ranges of applyResponse, as a lookup. Codes that
   applyResponse has no case for (Layout, Covering, ArmType) declare no range. -/

def statusRange (code : Nat) : Option (Nat × Nat) :=
  if code = rcVolume then some (0, 36)
  else if code = rcCenterVolume then some (0, 30)
  else if code = rcTreble then some (0, 20)
  else if code = rcBass then some (0, 20)
  else if code = rcMute then some (0, 1)
  else if code = rcQuietMode then some (0, 1)
  else if code = rcBalance then some (0, 100)
  else if code = rcSource then some (0, 3)
  else if code = rcPower then some (0, 1)
  else if code = rcPreset then some (0, 3)
  else if code = rcSubwoofer then some (0, 1)
  else if code = rcRearVolume then some (0, 30)
  else none

def statusInRange (code value : Nat) : Bool :=
  match statusRange code with
  | some (lo, hi) => inRange value lo hi
  | none => false

/- src/settings.ts : the characteristic UUIDs named by the command encoders. -/

def charUpStream : String := "657863656c706f696e742e636f6d0001"
def charDeviceInfo : String := "657863656c706f696e742e636f6d0002"
def charEqControl : String := "657863656c706f696e742e636f6d0003"
def charAudioPath : String := "657863656c706f696e742e636f6d0004"
def charPlayerControl : String := "657863656c706f696e742e636f6d0005"
def charSourceCtl : String := "657863656c706f696e742e636f6d0007"

/- src/protocol/commands.ts : BleCommand and the command encoders.  Buffer.from
   coerces each entry to an unsigned byte, modelled by toByte (mod 256). -/

structure BleCommand where
  characteristicUuid : String
  data : List Int
deriving DecidableEq, Repr

def toByte (v : Int) : Int := v % 256

def formatA (cmdId subCmdId value : Int) : List Int :=
  [0xAA, toByte cmdId, toByte subCmdId, 0x01, toByte value]

def formatB (cmdId value : Int) : List Int :=
  [0xAA, toByte cmdId, toByte value, 0x00]

def eqCommand (subCmdId value : Int) : BleCommand :=
  ⟨charEqControl, formatA 0x03 subCmdId value⟩

def setVolume (volume : Int) : BleCommand := eqCommand 0x02 (max 0 (min 36 volume))

def setBass (bass : Int) : BleCommand := eqCommand 0x01 (max 0 (min 20 bass))

def setTreble (treble : Int) : BleCommand := eqCommand 0x00 (max 0 (min 20 treble))

def setCenterVolume (center : Int) : BleCommand := eqCommand 0x03 (max 0 (min 30 center))

def setRearVolume (rear : Int) : BleCommand := eqCommand 0x0A (max 0 (min 30 rear))

def setMute (muted : Bool) : BleCommand := eqCommand 0x09 (if muted then 1 else 0)

def setQuietMode (enabled : Bool) : BleCommand := eqCommand 0x04 (if enabled then 1 else 0)

def setBalance (balance : Int) : BleCommand :=
  ⟨charAudioPath, formatA 0x04 0x00 (max 0 (min 100 balance))⟩

def setPower (enabled : Bool) : BleCommand :=
  ⟨charAudioPath, formatA 0x04 0x01 (if enabled then 1 else 0)⟩

def setPreset (preset : Int) : BleCommand := ⟨charEqControl, formatB 0x03 preset⟩

def setSource (source : Int) : BleCommand := ⟨charSourceCtl, formatB 0x07 source⟩

def requestDeviceInfo : BleCommand := ⟨charDeviceInfo, formatB 0x01 0x01⟩

def requestVersionInfo : BleCommand := ⟨charDeviceInfo, [0xAA, 0x01, 0x01, 0x01]⟩

def setPlayPause (value : Int) : BleCommand := ⟨charPlayerControl, formatA 0x05 0x00 value⟩

def setSkip (value : Int) : BleCommand := ⟨charPlayerControl, formatA 0x05 0x01 value⟩

/- src/protocol/device.ts (LovesacDevice) : the volume/percent rescales.
   JavaScript Math.round(x) rounds half toward positive infinity, which is
   floor (x + 1/2); on the rationals produced here the exact value is never a
   tie, so the rational model coincides with the IEEE double computation. -/

def MAX_VOLUME : Int := 36

def jsRound (x : ℚ) : Int := Int.floor (x + 1/2)

def volumeToPercent (volume : Int) : Int :=
  jsRound ((volume : ℚ) / (MAX_VOLUME : ℚ) * 100)

def percentToVolume (percent : Int) : Int :=
  jsRound ((percent : ℚ) / 100 * (MAX_VOLUME : ℚ))

/- src/ble/BleConnectionManager.ts : the queue-draining loop (processQueue),
   with ensureConnected and the transport write.  The asynchronous transport
   is modelled by an oracle giving the outcome of the n-th connect and the
   n-th write call; the loop is the only writer of link state, so one drain of
   a fixed queue is a sequential recursion.  Every transport interaction and
   every command completion is recorded as an operation in an ordered list. -/

inductive BleOp where
  | opConnect (ok : Bool)
  | opDisconnect
  | opWrite (cmd : Nat) (ok : Bool)
  | opComplete (cmd : Nat) (ok : Bool)
deriving DecidableEq, Repr

structure ClientEnv where
  connectOk : Nat → Bool
  writeOk : Nat → Bool

structure LinkState where
  connected : Bool
  nConnect : Nat
  nWrite : Nat
deriving DecidableEq, Repr

def ensureConnected (env : ClientEnv) (s : LinkState) : Bool × List BleOp × LinkState :=
  if s.connected then (true, [], s)
  else
    let ok := env.connectOk s.nConnect
    (ok, [BleOp.opConnect ok],
      { connected := ok, nConnect := s.nConnect + 1, nWrite := s.nWrite })

def writeStep (env : ClientEnv) (s : LinkState) (cmd : Nat) : Bool × List BleOp × LinkState :=
  let ok := env.writeOk s.nWrite
  (ok, [BleOp.opWrite cmd ok], { s with nWrite := s.nWrite + 1 })

def attemptWrite (env : ClientEnv) (s : LinkState) (cmd : Nat) : Bool × List BleOp × LinkState :=
  match ensureConnected env s with
  | (false, ops, s1) => (false, ops, s1)
  | (true, ops, s1) =>
    match writeStep env s1 cmd with
    | (ok, ops2, s2) => (ok, ops ++ ops2, s2)

def processItem (env : ClientEnv) (s : LinkState) (cmd : Nat) : Bool × List BleOp × LinkState :=
  match attemptWrite env s cmd with
  | (true, ops, s1) => (true, ops ++ [BleOp.opComplete cmd true], s1)
  | (false, ops, s1) =>
    let s2 : LinkState := { s1 with connected := false }
    let ops2 := ops ++ [BleOp.opDisconnect]
    match attemptWrite env s2 cmd with
    | (true, ops3, s3) => (true, ops2 ++ ops3 ++ [BleOp.opComplete cmd true], s3)
    | (false, ops3, s3) => (false, ops2 ++ ops3 ++ [BleOp.opComplete cmd false], s3)

def processQueue (env : ClientEnv) (s : LinkState) : List Nat → List Bool × List BleOp × LinkState
  | [] => ([], [], s)
  | cmd :: rest =>
    match processItem env s cmd with
    | (r, ops, s1) =>
      match processQueue env s1 rest with
      | (rs, ops2, s2) => (r :: rs, ops ++ ops2, s2)

structure ManagerState where
  processing : Bool
  link : LinkState
deriving DecidableEq, Repr

def processQueueCall (env : ClientEnv) (m : ManagerState) (queue : List Nat) :
    List Bool × List BleOp × ManagerState :=
  if m.processing then ([], [], m)
  else
    match processQueue env m.link queue with
    | (rs, ops, s1) => (rs, ops, { processing := false, link := s1 })

def writtenCmds (ops : List BleOp) : List Nat :=
  ops.filterMap fun op =>
    match op with
    | BleOp.opWrite cmd _ => some cmd
    | _ => none

def completedCmds (ops : List BleOp) : List Nat :=
  ops.filterMap fun op =>
    match op with
    | BleOp.opComplete cmd _ => some cmd
    | _ => none

/- src/ble/BleConnectionManager.ts (doConnect) together with
   src/ble/BleClient.ts (connect) : the connect-target / address-pinning
   logic.  doConnect always passes `this.address || undefined` to the client;
   on a successful auto-discovered connect it stores the client's resolved
   address in this.resolvedAddress.  BleClient.connect scans for the given
   address when one is passed and scans for any matching device otherwise. -/

structure BleMgr where
  address : String
  resolvedAddress : String
  connected : Bool
deriving DecidableEq, Repr

def mkBleMgr (address : String) : BleMgr :=
  { address := address, resolvedAddress := address, connected := false }

def connectArg (m : BleMgr) : Option String :=
  if m.address = "" then none else some m.address

inductive ScanKind where
  | forDevice (addr : String)
  | anyDevice
deriving DecidableEq, Repr

def clientScanKind : Option String → ScanKind
  | some a => ScanKind.forDevice a
  | none => ScanKind.anyDevice

def doConnectSuccess (m : BleMgr) (clientResolved : String) : BleMgr :=
  let m1 :=
    if m.address = "" ∧ clientResolved ≠ "" then
      { m with resolvedAddress := clientResolved }
    else m
  { m1 with connected := true }

def mgrDisconnect (m : BleMgr) : BleMgr := { m with connected := false }

/- src/protocol/device.ts (LovesacDevice.handleNotification) : the two
   listener broadcast loops.  A listener is modelled by whether invoking it
   throws; each loop returns the registration indices of the listeners it
   invokes, in invocation order, starting from index i.  The state-change loop
   wraps each call in try/catch, so it continues past a throw; the
   version-resolved loop has no try/catch, so a throw aborts the iteration. -/

def stateListenerLoop : Nat → List Bool → List Nat
  | _, [] => []
  | i, _ :: rest => i :: stateListenerLoop (i + 1) rest

def versionListenerLoop : Nat → List Bool → List Nat
  | _, [] => []
  | i, throws :: rest =>
    if throws then [i] else i :: versionListenerLoop (i + 1) rest

def uncaughtStopLen : List Bool → Nat
  | [] => 0
  | true :: _ => 1
  | false :: rest => uncaughtStopLen rest + 1

/- Helper lemmas. -/

lemma toByte_clamp (hi v : Int) (h0 : 0 ≤ hi) (h256 : hi < 256) :
    toByte (max 0 (min hi v)) = max 0 (min hi v) := by
  unfold toByte
  omega

lemma writtenCmds_append (a b : List BleOp) :
    writtenCmds (a ++ b) = writtenCmds a ++ writtenCmds b := by
  simp [writtenCmds, List.filterMap_append]

lemma completedCmds_append (a b : List BleOp) :
    completedCmds (a ++ b) = completedCmds a ++ completedCmds b := by
  simp [completedCmds, List.filterMap_append]

lemma processItem_spec (env : ClientEnv) (s : LinkState) (cmd : Nat) :
    ∃ n, n ≤ 2 ∧
      writtenCmds (processItem env s cmd).2.1 = List.replicate n cmd ∧
      completedCmds (processItem env s cmd).2.1 = [cmd] := by
  obtain ⟨c, nc, nw⟩ := s
  cases c <;> cases hc1 : env.connectOk nc <;> cases hw1 : env.writeOk nw <;>
    cases hc2 : env.connectOk (nc + 1) <;> cases hw2 : env.writeOk (nw + 1) <;>
      simp only [processItem, attemptWrite, ensureConnected, writeStep,
        hc1, hw1, hc2, hw2, if_true, if_false, Bool.false_eq_true,
        reduceIte, List.nil_append, List.append_assoc, List.cons_append] <;>
      first
        | exact ⟨0, by norm_num, rfl, rfl⟩
        | exact ⟨1, by norm_num, rfl, rfl⟩
        | exact ⟨2, by norm_num, rfl, rfl⟩

/-- WriteBlocks q ws holds when ws consists of one block of consecutive
equal writes per queued command, blocks in queue order, each command written
at most twice (the initial write plus at most one retry). -/
inductive WriteBlocks : List Nat → List Nat → Prop
  | nil : WriteBlocks [] []
  | cons (cmd : Nat) (n : Nat) (q ws : List Nat) (hn : n ≤ 2) :
      WriteBlocks q ws → WriteBlocks (cmd :: q) (List.replicate n cmd ++ ws)

lemma stateListenerLoop_eq (i : Nat) (ls : List Bool) :
    stateListenerLoop i ls = (List.range ls.length).map (i + ·) := by
  induction ls generalizing i with
  | nil => simp [stateListenerLoop]
  | cons th rest ih =>
    rw [show stateListenerLoop i (th :: rest) = i :: stateListenerLoop (i + 1) rest from rfl,
      ih (i + 1), List.length_cons, List.range_succ_eq_map, List.map_cons, List.map_map]
    congr 1
    exact List.map_congr_left fun a _ => by simp [Function.comp]; omega

lemma versionListenerLoop_eq (i : Nat) (ls : List Bool) :
    versionListenerLoop i ls = (List.range (uncaughtStopLen ls)).map (i + ·) := by
  induction ls generalizing i with
  | nil => simp [versionListenerLoop, uncaughtStopLen]
  | cons th rest ih =>
    cases th
    · rw [show versionListenerLoop i (false :: rest) = i :: versionListenerLoop (i + 1) rest
          from rfl,
        ih (i + 1),
        show uncaughtStopLen (false :: rest) = uncaughtStopLen rest + 1 from rfl,
        List.range_succ_eq_map, List.map_cons, List.map_map]
      congr 1
      exact List.map_congr_left fun a _ => by simp [Function.comp]; omega
    · simp [versionListenerLoop, uncaughtStopLen, List.range_succ]

lemma uncaughtStopLen_le (ls : List Bool) : uncaughtStopLen ls ≤ ls.length := by
  induction ls with
  | nil => simp [uncaughtStopLen]
  | cons th rest ih =>
    cases th
    · simp only [uncaughtStopLen, List.length_cons]
      omega
    · simp [uncaughtStopLen]

lemma uncaughtStopLen_of_noThrow (ls : List Bool) (h : ∀ b ∈ ls, b = false) :
    uncaughtStopLen ls = ls.length := by
  induction ls with
  | nil => rfl
  | cons th rest ih =>
    have hth := h th (by simp)
    subst hth
    simp only [uncaughtStopLen, List.length_cons]
    rw [ih fun b hb => h b (by simp [hb])]

/- Claim theorems. -/

/-- Claim C1, counterexample: the power status code is a known code and wire
value 1 is valid for its declared range [0,1], yet applying (Power, 1) to a
freshly created default state reports "unchanged", not "changed": the
uninitialized sentinel of the boolean power field is the in-domain value
false, which already equals the decoded value. -/
theorem defaultStatePowerUnchanged :
    statusInRange rcPower 1 = true ∧
    (applyResponse createDefaultState rcPower 1).1 = ApplyResult.unchanged := by
  decide

set_option maxRecDepth 10000 in
/-- Claim C1 (amended): for every known status code with a declared range and
every byte value valid for that range, the first application to the default
state reports "changed" exactly when it actually changes the default state;
for the numeric-sentinel codes (volume, center, treble, bass, balance,
source, preset, rear) the first application always reports "changed"; and
re-applying the same (code, value) pair to the resulting state always
reports "unchanged". -/
theorem defaultStateFirstApply :
    ∀ code ∈ Finset.range 16, ∀ value ∈ Finset.range 256,
      statusInRange code value = true →
        (((applyResponse createDefaultState code value).1 = ApplyResult.changed ↔
           (applyResponse createDefaultState code value).2 ≠ createDefaultState) ∧
         ((code = rcVolume ∨ code = rcCenterVolume ∨ code = rcTreble ∨ code = rcBass ∨
           code = rcBalance ∨ code = rcSource ∨ code = rcPreset ∨ code = rcRearVolume) →
           (applyResponse createDefaultState code value).1 = ApplyResult.changed) ∧
         (applyResponse (applyResponse createDefaultState code value).2 code value).1 =
           ApplyResult.unchanged) := by
  decide

/-- Witness for defaultStateFirstApply at code Volume (0x01), value 5. -/
theorem defaultStateFirstApplyWitness :
    ((applyResponse createDefaultState 1 5).1 = ApplyResult.changed ↔
      (applyResponse createDefaultState 1 5).2 ≠ createDefaultState) ∧
    ((1 = rcVolume ∨ 1 = rcCenterVolume ∨ 1 = rcTreble ∨ 1 = rcBass ∨
      1 = rcBalance ∨ 1 = rcSource ∨ 1 = rcPreset ∨ 1 = rcRearVolume) →
      (applyResponse createDefaultState 1 5).1 = ApplyResult.changed) ∧
    (applyResponse (applyResponse createDefaultState 1 5).2 1 5).1 =
      ApplyResult.unchanged :=
  defaultStateFirstApply 1 (by decide) 5 (by decide) (by decide)

/-- Claim C2, evaluated at the failing input: with no configured address,
after a first successful connect that resolved address aa:bb:cc:dd:ee:ff and
a disconnect, the argument the manager passes to client.connect for the
reconnect is still none, so the client performs a second any-device
auto-discovery scan instead of targeting the pinned resolved address. -/
theorem reconnectRescansAutoDiscovery :
    (doConnectSuccess (mkBleMgr "") "aa:bb:cc:dd:ee:ff").resolvedAddress
      = "aa:bb:cc:dd:ee:ff" ∧
    connectArg (mgrDisconnect (doConnectSuccess (mkBleMgr "") "aa:bb:cc:dd:ee:ff")) = none ∧
    clientScanKind (connectArg (mgrDisconnect
      (doConnectSuccess (mkBleMgr "") "aa:bb:cc:dd:ee:ff"))) = ScanKind.anyDevice ∧
    connectArg (mgrDisconnect (doConnectSuccess (mkBleMgr "") "aa:bb:cc:dd:ee:ff"))
      ≠ some "aa:bb:cc:dd:ee:ff" := by
  refine ⟨?_, ?_, ?_, ?_⟩ <;> decide

/-- Claim C3: when the connection is up and the write of the dequeued command
fails, the drain loop performs exactly one disconnect, one reconnect and one
retry write of the same command, completes the command with the retry's
outcome (rejected when the retry also fails), and the queue then proceeds to
the next queued command from the resulting link state. -/
theorem writeFailureSingleRetry (env : ClientEnv) (s : LinkState) (cmd : Nat)
    (rest : List Nat) (hconn : s.connected = true)
    (hw1 : env.writeOk s.nWrite = false)
    (hrc : env.connectOk s.nConnect = true) :
    processItem env s cmd =
      (env.writeOk (s.nWrite + 1),
       [BleOp.opWrite cmd false, BleOp.opDisconnect, BleOp.opConnect true,
        BleOp.opWrite cmd (env.writeOk (s.nWrite + 1)),
        BleOp.opComplete cmd (env.writeOk (s.nWrite + 1))],
       { connected := true, nConnect := s.nConnect + 1, nWrite := s.nWrite + 2 }) ∧
    (processQueue env s (cmd :: rest)).1 =
      env.writeOk (s.nWrite + 1) ::
        (processQueue env
          { connected := true, nConnect := s.nConnect + 1, nWrite := s.nWrite + 2 }
          rest).1 := by
  obtain ⟨c, nc, nw⟩ := s
  simp only [LinkState.connected] at hconn
  subst hconn
  simp only [LinkState.nWrite, LinkState.nConnect] at hw1 hrc
  cases hw2 : env.writeOk (nw + 1) <;>
    simp [processItem, attemptWrite, ensureConnected, writeStep, processQueue,
      hw1, hrc, hw2]

/-- Witness for writeFailureSingleRetry: every write fails, every connect
succeeds, command 7 followed by queued command 9. -/
theorem writeFailureSingleRetryWitness :
    processItem ⟨fun _ => true, fun _ => false⟩ ⟨true, 0, 0⟩ 7 =
      (false,
       [BleOp.opWrite 7 false, BleOp.opDisconnect, BleOp.opConnect true,
        BleOp.opWrite 7 false, BleOp.opComplete 7 false],
       ⟨true, 1, 2⟩) ∧
    (processQueue ⟨fun _ => true, fun _ => false⟩ ⟨true, 0, 0⟩ [7, 9]).1 =
      false :: (processQueue ⟨fun _ => true, fun _ => false⟩ ⟨true, 1, 2⟩ [9]).1 :=
  writeFailureSingleRetry ⟨fun _ => true, fun _ => false⟩ ⟨true, 0, 0⟩ 7 [9]
    rfl rfl rfl

/-- Claim C4: one drain of the queue completes every command exactly once, in
enqueue order; the transport writes form per-command blocks in enqueue order
with at most two writes per command, so no command is written ahead of one
enqueued earlier; and a processQueue call made while the processing flag is
set returns immediately without touching the link or the queue. -/
theorem queueFifoOrder (env : ClientEnv) (s : LinkState) (q : List Nat) :
    completedCmds (processQueue env s q).2.1 = q ∧
    WriteBlocks q (writtenCmds (processQueue env s q).2.1) ∧
    (∀ m : ManagerState, m.processing = true → processQueueCall env m q = ([], [], m)) := by
  have guard : ∀ (qq : List Nat) (m : ManagerState), m.processing = true →
      processQueueCall env m qq = ([], [], m) := by
    intro qq m hm
    simp [processQueueCall, hm]
  induction q generalizing s with
  | nil => exact ⟨rfl, WriteBlocks.nil, guard _⟩
  | cons c rest ih =>
    obtain ⟨n, hn, hw, hcomp⟩ := processItem_spec env s c
    rcases hpi : processItem env s c with ⟨r, ops, s1⟩
    rw [hpi] at hw hcomp
    obtain ⟨ih1, ih2, -⟩ := ih s1
    rcases hpq : processQueue env s1 rest with ⟨rs, ops2, s2⟩
    rw [hpq] at ih1 ih2
    refine ⟨?_, ?_, guard _⟩
    · simp only [processQueue, hpi, hpq, completedCmds_append, hcomp, ih1]
      rfl
    · simp only [processQueue, hpi, hpq, writtenCmds_append, hw]
      exact WriteBlocks.cons c n rest _ hn ih2

/-- Witness for queueFifoOrder: the single-flight guard at a concrete
manager state whose processing flag is set. -/
theorem queueFifoOrderWitness :
    processQueueCall ⟨fun _ => true, fun _ => true⟩ ⟨true, ⟨false, 0, 0⟩⟩ [5] =
      ([], [], ⟨true, ⟨false, 0, 0⟩⟩) :=
  (queueFifoOrder ⟨fun _ => true, fun _ => true⟩ ⟨false, 0, 0⟩ [5]).2.2
    ⟨true, ⟨false, 0, 0⟩⟩ rfl

/-- Claim C5: the power status code decodes with inverted polarity (wire 0x00
sets power to true, 0x01 sets it to false) while mute, quiet mode and
subwoofer-connected decode with natural polarity (wire 1 means true), for
every starting state. -/
theorem powerPolarityInverted (s : DeviceState) :
    (applyResponse s rcPower 0x00).2.power = true ∧
    (applyResponse s rcPower 0x01).2.power = false ∧
    (applyResponse s rcMute 1).2.mute = true ∧
    (applyResponse s rcMute 0).2.mute = false ∧
    (applyResponse s rcQuietMode 1).2.quietMode = true ∧
    (applyResponse s rcQuietMode 0).2.quietMode = false ∧
    (applyResponse s rcSubwoofer 1).2.subwooferConnected = true ∧
    (applyResponse s rcSubwoofer 0).2.subwooferConnected = false := by
  obtain ⟨p, vol, m, src, pre, q, b, t, c, r, bal, sub⟩ := s
  cases p <;> cases m <;> cases q <;> cases sub <;>
    exact ⟨rfl, rfl, rfl, rfl, rfl, rfl, rfl, rfl⟩

/-- Claim C6: each range-documented encoder clamps any integer input to its
documented range and emits that clamped value as the frame's value byte
(volume to [0,36], bass and treble to [0,20], center and rear volume to
[0,30], balance to [0,100]), and every encoder, including play/pause and
skip, always returns a complete 5-byte frame. -/
theorem encoderClampRanges (v : Int) :
    ((setVolume v).data = [0xAA, 0x03, 0x02, 0x01, max 0 (min 36 v)] ∧
      0 ≤ max 0 (min 36 v) ∧ max 0 (min 36 v) ≤ 36) ∧
    ((setBass v).data = [0xAA, 0x03, 0x01, 0x01, max 0 (min 20 v)] ∧
      (setTreble v).data = [0xAA, 0x03, 0x00, 0x01, max 0 (min 20 v)] ∧
      0 ≤ max 0 (min 20 v) ∧ max 0 (min 20 v) ≤ 20) ∧
    ((setCenterVolume v).data = [0xAA, 0x03, 0x03, 0x01, max 0 (min 30 v)] ∧
      (setRearVolume v).data = [0xAA, 0x03, 0x0A, 0x01, max 0 (min 30 v)] ∧
      0 ≤ max 0 (min 30 v) ∧ max 0 (min 30 v) ≤ 30) ∧
    ((setBalance v).data = [0xAA, 0x04, 0x00, 0x01, max 0 (min 100 v)] ∧
      0 ≤ max 0 (min 100 v) ∧ max 0 (min 100 v) ≤ 100) ∧
    ((setPlayPause v).data.length = 5 ∧ (setSkip v).data.length = 5) := by
  refine ⟨⟨?_, by omega, by omega⟩, ⟨?_, ?_, by omega, by omega⟩,
    ⟨?_, ?_, by omega, by omega⟩, ⟨?_, by omega, by omega⟩, rfl, rfl⟩ <;>
  · simp only [setVolume, setBass, setTreble, setCenterVolume, setRearVolume,
      setBalance, eqCommand, formatA]
    norm_num [toByte]
    omega

/-- Claim C7, counterexample: the 5-byte frame 00 00 AA 01 03 satisfies every
condition of the claim's characterization (length at least 4, shorter than
the claimed 8-byte reserved version shape, second-to-last byte 0x01 in the
known code range), so the claim requires a parse result (code 0x01, value
0x03), but parseNotification filters the version signature already at length
5 and returns no result. -/
theorem parseNotificationShortVersionFrame :
    parseNotification [0x00, 0x00, 0xAA, 0x01, 0x03] = none ∧
    4 ≤ ([0x00, 0x00, 0xAA, 0x01, 0x03] : List Nat).length ∧
    ¬ 8 ≤ ([0x00, 0x00, 0xAA, 0x01, 0x03] : List Nat).length ∧
    ([0x00, 0x00, 0xAA, 0x01, 0x03] : List Nat).getD 3 0 = 0x01 ∧
    1 ≤ ([0x00, 0x00, 0xAA, 0x01, 0x03] : List Nat).getD 3 0 ∧
    ([0x00, 0x00, 0xAA, 0x01, 0x03] : List Nat).getD 3 0 ≤ 0x0F := by
  decide

/-- Claim C7 (amended): parseNotification returns a (code, value) result if
and only if the frame is at least 4 bytes long, does not carry the reserved
version signature (at least 5 bytes with 0xAA 0x01 0x03 at offsets 2 to 4),
and its second-to-last byte lies in the known status-code range 0x01 to
0x0F; the result is then the second-to-last byte paired with the last
byte. -/
theorem parseNotificationSpec (data : List Nat) (code value : Nat) :
    parseNotification data = some ⟨code, value⟩ ↔
      (4 ≤ data.length ∧
       ¬(5 ≤ data.length ∧ data.getD 2 0 = 0xAA ∧ data.getD 3 0 = 0x01 ∧
         data.getD 4 0 = 0x03) ∧
       1 ≤ data.getD (data.length - 2) 0 ∧ data.getD (data.length - 2) 0 ≤ 0x0F ∧
       code = data.getD (data.length - 2) 0 ∧ value = data.getD (data.length - 1) 0) := by
  rw [parseNotification]
  by_cases h1 : data.length < 4
  · rw [if_pos h1]
    constructor
    · intro h
      exact Option.noConfusion h
    · rintro ⟨ha, -⟩
      omega
  · rw [if_neg h1]
    by_cases h2 : 5 ≤ data.length ∧ data.getD 2 0 = 0xAA ∧ data.getD 3 0 = 0x01
        ∧ data.getD 4 0 = 0x03
    · rw [if_pos h2]
      constructor
      · intro h
        exact Option.noConfusion h
      · rintro ⟨-, hb, -⟩
        exact absurd h2 hb
    · rw [if_neg h2]
      by_cases h3 : data.getD (data.length - 2) 0 < rcVolume
          ∨ data.getD (data.length - 2) 0 > rcRearVolume
      · rw [if_pos h3]
        simp only [rcVolume, rcRearVolume] at h3
        constructor
        · intro h
          exact Option.noConfusion h
        · rintro ⟨-, -, hc, hd, -⟩
          omega
      · rw [if_neg h3]
        simp only [rcVolume, rcRearVolume] at h3
        push_neg at h3
        constructor
        · intro h
          rw [Option.some_inj, ParsedResponse.mk.injEq] at h
          exact ⟨by omega, h2, by omega, by omega, h.1.symm, h.2.symm⟩
        · rintro ⟨-, -, -, -, he, hf⟩
          subst he
          subst hf
          rfl

/-- Claim C8: for every native volume v in [0,36], converting to percent and
back differs from v by at most 1. -/
theorem volumeRoundTripDrift (v : Int) (h0 : 0 ≤ v) (h36 : v ≤ 36) :
    (percentToVolume (volumeToPercent v) - v).natAbs ≤ 1 := by
  interval_cases v <;>
    norm_num [percentToVolume, volumeToPercent, jsRound, MAX_VOLUME]

/-- Witness for volumeRoundTripDrift at v = 20. -/
theorem volumeRoundTripDriftWitness :
    (percentToVolume (volumeToPercent 20) - 20).natAbs ≤ 1 :=
  volumeRoundTripDrift 20 (by decide) (by decide)

/-- Claim C9, counterexample: in the version-resolved broadcast loop, with
two registered listeners of which the first throws, only listener 0 is
invoked: the throw prevents listener 1 from being invoked, though the
state-change loop invokes both in the same situation. -/
theorem versionListenerAborts :
    versionListenerLoop 0 [true, false] = [0] ∧
    1 ∉ versionListenerLoop 0 [true, false] ∧
    stateListenerLoop 0 [true, false] = [0, 1] := by
  decide

/-- Claim C9 (amended): the state-change broadcast invokes every registered
listener in registration order regardless of throws; the version-resolved
broadcast invokes listeners in registration order but stops at the first
listener that throws, so it reaches all listeners only when none of the
earlier ones throws. -/
theorem listenerBroadcastOrder (ls : List Bool) :
    stateListenerLoop 0 ls = List.range ls.length ∧
    versionListenerLoop 0 ls = List.range (uncaughtStopLen ls) ∧
    uncaughtStopLen ls ≤ ls.length ∧
    ((∀ b ∈ ls, b = false) → versionListenerLoop 0 ls = List.range ls.length) := by
  refine ⟨?_, ?_, uncaughtStopLen_le ls, ?_⟩
  · simp [stateListenerLoop_eq]
  · simp [versionListenerLoop_eq]
  · intro h
    simp [versionListenerLoop_eq, uncaughtStopLen_of_noThrow ls h]

/-- Witness for listenerBroadcastOrder at two non-throwing listeners. -/
theorem listenerBroadcastOrderWitness :
    versionListenerLoop 0 [false, false] = List.range 2 :=
  (listenerBroadcastOrder [false, false]).2.2.2 (by decide)

/-- Claim C10: setPower writes with natural polarity, producing the frame
AA 04 01 01 followed by 1 for on and 0 for off on the AudioPath endpoint,
while an inbound power status with that same value byte 1 decodes to power
off (inverted polarity). -/
theorem setPowerNaturalPolarity (onFlag : Bool) (s : DeviceState) :
    setPower onFlag =
      ⟨charAudioPath, [0xAA, 0x04, 0x01, 0x01, if onFlag then 1 else 0]⟩ ∧
    (setPower true).data.getD 4 0 = 1 ∧
    (applyResponse s rcPower 1).2.power = false ∧
    (applyResponse s rcPower 0).2.power = true := by
  refine ⟨?_, rfl, ?_, ?_⟩
  · cases onFlag <;> rfl
  · obtain ⟨p, vol, m, src, pre, q, b, t, c, r, bal, sub⟩ := s
    cases p <;> rfl
  · obtain ⟨p, vol, m, src, pre, q, b, t, c, r, bal, sub⟩ := s
    cases p <;> rfl
